import Mathlib

/-!
Verification development for the SiegPy submission.

The submission consists of Jupyter notebooks (under doc/notebooks and the
unnamed file part_000, which concatenates two further notebooks) and the
packaging/test configuration setup.cfg.  The siegpy package itself is not part
of the submitted files: the notebooks only import and call its classes.

This file contains
  * a data-level inventory of the submitted files and of the functions their
    code cells define, used for the structural claims about the submission;
  * shallow embeddings of the three functions actually defined in notebook
    code cells (print_errors, SSE_errors, scatter_plot);
  * a model of the absent siegpy library (potentials, coordinate maps,
    Hamiltonian, eigenstates, basis sets), built from the specification's
    component description since the package source is not among the files.
-/

namespace SiegPy

/-! ## Inventory of the submitted files -/

/-- Kind of a file in the submission: a Jupyter notebook or a configuration
file. -/
inductive FileKind
  | notebook
  | config
deriving DecidableEq, Repr

/-- Role of a function defined in a notebook code cell, read off from its
embedded body below: print_errors prints a table of trapezoidal-integral
errors, SSE_errors drives the expansion comparisons, scatter_plot draws a
scatter plot.  The roles rootFinder and propagationIntegrator are what the
claims forbid; no defined function has them. -/
inductive DefRole
  | errorTablePrinter
  | expansionErrorDriver
  | plottingHelper
  | rootFinder
  | propagationIntegrator
deriving DecidableEq, Repr

/-- A top-level function definition appearing in a code cell of a submitted
notebook.  usesTrapz records whether its body calls the numerical integration
routine np.trapz. -/
structure DefinedFn where
  name : String
  role : DefRole
  usesTrapz : Bool
deriving DecidableEq, Repr

/-- A file of the submission, with the names it imports from siegpy and the
top-level functions its code cells define. -/
structure SubmissionFile where
  path : String
  kind : FileKind
  importedNames : List String
  definedNames : List DefinedFn
deriving DecidableEq, Repr

/-- The entry for print_errors (src/unnamed/part_000, first notebook,
lines 52-82): its body computes np.trapz-based absolute and relative errors. -/
def printErrorsEntry : DefinedFn :=
  { name := "print_errors", role := .errorTablePrinter, usesTrapz := true }

/-- The entry for SSE_errors (src/unnamed/part_000, first notebook,
lines 85-151). -/
def sseErrorsEntry : DefinedFn :=
  { name := "SSE_errors", role := .expansionErrorDriver, usesTrapz := false }

/-- The entry for scatter_plot (defined both in src/unnamed/part_000, second
notebook, lines 1015-1079, and in doc/notebooks/gaussian_potentials.ipynb,
lines 356-420). -/
def scatterPlotEntry : DefinedFn :=
  { name := "scatter_plot", role := .plottingHelper, usesTrapz := false }

/-- src/unnamed/part_000: concatenation of two notebooks (a time-propagation
error-estimation notebook and a symbolic Woods-Saxon notebook). -/
def partZeroFile : SubmissionFile :=
  { path := "unnamed/part_000"
    kind := .notebook
    importedNames := ["SWPBasisSet", "Gaussian", "SWPotential", "Hamiltonian",
      "BasisSet", "ErfKGCoordMap", "WoodsSaxonPotential"]
    definedNames := [printErrorsEntry, sseErrorsEntry, scatterPlotEntry] }

/-- src/setup.cfg: packaging, test and lint configuration; defines no
function. -/
def setupCfgFile : SubmissionFile :=
  { path := "setup.cfg", kind := .config, importedNames := [], definedNames := [] }

/-- src/doc/notebooks/gaussian_potentials.ipynb. -/
def gaussianPotentialsFile : SubmissionFile :=
  { path := "doc/notebooks/gaussian_potentials.ipynb"
    kind := .notebook
    importedNames := ["Hamiltonian", "ErfKGCoordMap", "BasisSet",
      "TwoGaussianPotential", "FourGaussianPotential"]
    definedNames := [scatterPlotEntry] }

/-- src/doc/notebooks/convergence_exact_strength_function.ipynb (it also
contains a concatenated square-well tutorial notebook); its code cells define
no function. -/
def convergenceFile : SubmissionFile :=
  { path := "doc/notebooks/convergence_exact_strength_function.ipynb"
    kind := .notebook
    importedNames := ["SWPBasisSet", "Rectangular", "Gaussian", "SWPotential",
      "SWPSiegert", "SWPContinuum"]
    definedNames := [] }

/-- src/doc/notebooks/other_symbolic_potentials.ipynb; its code cells define
no function. -/
def otherSymbolicFile : SubmissionFile :=
  { path := "doc/notebooks/other_symbolic_potentials.ipynb"
    kind := .notebook
    importedNames := ["SymbolicPotential", "Hamiltonian", "UniformCoordMap"]
    definedNames := [] }

/-- All files of the submission. -/
def submissionFiles : List SubmissionFile :=
  [partZeroFile, setupCfgFile, gaussianPotentialsFile, convergenceFile,
    otherSymbolicFile]

/-- The library classes that, per the claims, no submitted file may define. -/
def coreNames : List String := ["SWPotential", "Hamiltonian", "SWPBasisSet"]

/-! ## Embedding of print_errors (src/unnamed/part_000, lines 52-82) -/

/-- Trapezoidal integration with uniform step dx, as computed by
np.trapz(y, dx=dx): the sum of dx*(y i + y (i+1))/2 over consecutive pairs;
0 on lists of length at most one. -/
def trapz (y : List ℚ) (dx : ℚ) : ℚ :=
  (((y.zip y.tail).map fun p => p.1 + p.2).sum) * dx / 2

/-- One row of the table printed by print_errors: the time and the absolute
and relative errors at that time. -/
structure ErrorRow where
  t : ℚ
  absError : ℚ
  relError : ℚ
deriving DecidableEq, Repr

/-- Shallow embedding of print_errors (src/unnamed/part_000, first notebook,
lines 52-82), as the list of table rows it prints.  The 2D arrays exact and
siegert_exp are lists of spatial rows.  In the Python source the loop is
`for i, t in enumerate(time_grid)` where the name time_grid is not a parameter
of print_errors and resolves to the module-level global; that global is passed
here explicitly as timeGridGlobal.  Table formatting is not modelled. -/
def print_errors_rows (timeGridGlobal : List ℚ)
    (exact siegert_exp : List (List ℚ)) (dx : ℚ) : List ErrorRow :=
  (List.range timeGridGlobal.length).map fun i =>
    let t := timeGridGlobal.getD i 0
    let abs_err := trapz
      (((exact.getD i []).zip (siegert_exp.getD i [])).map fun p => |p.1 - p.2|) dx
    let norm := trapz ((exact.getD i []).map fun a => |a|) dx
    { t := t, absError := abs_err, relError := abs_err / norm }

/-! ## Model of the absent siegpy library

The siegpy package source is not among the submitted files; only the notebooks
that import and call it are.  The definitions below are therefore modelled
from the specification's component description (section 2 of the spec) and
from the call signatures exercised by the notebooks. -/

/-- Modelled from the spec: complex numbers as rational pairs, for the complex
wavenumbers and energies of Siegert states. -/
structure CQ where
  re : ℚ
  im : ℚ
deriving DecidableEq, Repr

/-- Modelled from the spec: parity of an eigenstate (the even/odd filters of a
basis set). -/
inductive Parity
  | even
  | odd
deriving DecidableEq, Repr

/-- Modelled from the spec: the five types an eigenstate produced by
Hamiltonian.solve is tagged with (bound / resonant / antiresonant / continuum
/ unknown). -/
inductive StateType
  | bound
  | resonant
  | antiresonant
  | continuum
  | unknown
deriving DecidableEq, Repr

/-- Modelled from the spec: an individual eigenfunction with wavenumber,
energy, parity, virial (quality metric), a type tag, and a wavefunction
evaluable on a grid; the grid is assignable to the state (`s.grid = xgrid` in
the notebooks).  The analytic form of the wavefunction lives in the absent
package and is abstracted as a function field. -/
structure EigenState where
  wavenumber : CQ
  energy : CQ
  parity : Parity
  virial : ℚ
  tag : StateType
  wavefunction : ℚ → CQ
  grid : List ℚ

/-- Modelled from the spec: a container of eigenstates (BasisSet /
SWPBasisSet). -/
structure BasisSet where
  states : List EigenState

/-- Modelled from the spec: the set-like composition `a + b` (and in-place
`+=`) of two basis sets, keeping the states of a followed by the states of
b. -/
def BasisSet.add (a b : BasisSet) : BasisSet :=
  ⟨a.states ++ b.states⟩

/-- Modelled from the spec: the basis set of the member states with a given
type tag. -/
def BasisSet.ofType (a : BasisSet) (t : StateType) : BasisSet :=
  ⟨a.states.filter fun s => s.tag == t⟩

/-- Modelled from the spec: the bound states of a basis set. -/
def BasisSet.bounds (a : BasisSet) : BasisSet := a.ofType .bound

/-- Modelled from the spec: the resonant states of a basis set. -/
def BasisSet.resonants (a : BasisSet) : BasisSet := a.ofType .resonant

/-- Modelled from the spec: the antiresonant states of a basis set. -/
def BasisSet.antiresonants (a : BasisSet) : BasisSet := a.ofType .antiresonant

/-- Modelled from the spec: the continuum states of a basis set. -/
def BasisSet.continuum (a : BasisSet) : BasisSet := a.ofType .continuum

/-- Modelled from the spec: the states of a basis set whose virial-based
classification left them untagged. -/
def BasisSet.unknown (a : BasisSet) : BasisSet := a.ofType .unknown

/-- Modelled from the spec: the even-parity member states of a basis set. -/
def BasisSet.even (a : BasisSet) : BasisSet :=
  ⟨a.states.filter fun s => s.parity == Parity.even⟩

/-- Modelled from the spec: the odd-parity member states of a basis set. -/
def BasisSet.odd (a : BasisSet) : BasisSet :=
  ⟨a.states.filter fun s => s.parity == Parity.odd⟩

/-! ### Potentials -/

/-- Modelled from the spec: symbolic expressions in the single variable x, the
front end the symbolic potentials (Woods-Saxon, sums of Gaussians, sympy
strings) are built from. -/
inductive SymExpr
  | x
  | const (c : ℚ)
  | add (a b : SymExpr)
  | mul (a b : SymExpr)
  | div (a b : SymExpr)
  | neg (a : SymExpr)
  | absE (a : SymExpr)
  | expF (a : SymExpr)
deriving DecidableEq, Repr

/-- Modelled from the spec: evaluation of a symbolic expression at a point;
the transcendental exponential is supplied as an interpretation expFn so that
evaluation stays executable over the rationals. -/
def SymExpr.evalWith (expFn : ℚ → ℚ) : SymExpr → ℚ → ℚ
  | .x, t => t
  | .const c, _ => c
  | .add a b, t => a.evalWith expFn t + b.evalWith expFn t
  | .mul a b, t => a.evalWith expFn t * b.evalWith expFn t
  | .div a b, t => a.evalWith expFn t / b.evalWith expFn t
  | .neg a, t => -(a.evalWith expFn t)
  | .absE a, t => |a.evalWith expFn t|
  | .expF a, t => expFn (a.evalWith expFn t)

/-- Modelled from the spec: the form of a potential, either the analytic 1D
square well (width l, depth V0, centered on x = 0) or a symbolic function of
x. -/
inductive PotentialForm
  | squareWell (l V0 : ℚ)
  | symbolic (f : SymExpr)
deriving DecidableEq, Repr

/-- Modelled from the spec: a potential V(x), carrying the grid supplied at
construction. -/
structure Potential where
  form : PotentialForm
  grid : List ℚ
deriving DecidableEq, Repr

/-- Modelled from the spec: a Gaussian well or barrier of width sigma, center
xc and (signed) height h, as a symbolic expression. -/
def gaussianExpr (sigma xc h : ℚ) : SymExpr :=
  let d : SymExpr := .add .x (.neg (.const xc))
  .mul (.const h) (.expF (.neg (.div (.mul d d) (.const (2 * sigma ^ 2)))))

/-- Modelled from the spec: a Woods-Saxon potential of width l, depth V0 and
sharpness lbda, as the standard symmetric form -V0 / (1 + exp(lbda*(|x| -
l/2))); the exact closed form used by the absent package is not in the
submission. -/
def woodsSaxonExpr (l V0 lbda : ℚ) : SymExpr :=
  .neg (.div (.const V0)
    (.add (.const 1)
      (.expF (.mul (.const lbda) (.add (.absE .x) (.neg (.const (l / 2))))))))

/-- Modelled from the spec: the SWPotential constructor (1D square well of
width l and depth V0, with a construction grid). -/
def SWPotential (l V0 : ℚ) (grid : List ℚ) : Potential :=
  ⟨.squareWell l V0, grid⟩

/-- Modelled from the spec: the SymbolicPotential constructor. -/
def SymbolicPotential (f : SymExpr) (grid : List ℚ) : Potential :=
  ⟨.symbolic f, grid⟩

/-- Modelled from the spec: the WoodsSaxonPotential constructor. -/
def WoodsSaxonPotential (l V0 lbda : ℚ) (grid : List ℚ) : Potential :=
  SymbolicPotential (woodsSaxonExpr l V0 lbda) grid

/-- Modelled from the spec: the TwoGaussianPotential constructor (sum of two
Gaussian functions). -/
def TwoGaussianPotential (sigma1 xc1 h1 sigma2 xc2 h2 : ℚ)
    (grid : List ℚ) : Potential :=
  SymbolicPotential (.add (gaussianExpr sigma1 xc1 h1) (gaussianExpr sigma2 xc2 h2))
    grid

/-- Modelled from the spec: the FourGaussianPotential constructor (sum of four
Gaussian functions). -/
def FourGaussianPotential (sigma1 xc1 h1 sigma2 xc2 h2 sigma3 xc3 h3
    sigma4 xc4 h4 : ℚ) (grid : List ℚ) : Potential :=
  SymbolicPotential
    (.add (.add (gaussianExpr sigma1 xc1 h1) (gaussianExpr sigma2 xc2 h2))
      (.add (gaussianExpr sigma3 xc3 h3) (gaussianExpr sigma4 xc4 h4)))
    grid

/-- Modelled from the spec: evaluation of a potential at an arbitrary point
(the square well is -V0 inside [-l/2, l/2] and 0 outside; a symbolic potential
evaluates its expression). -/
def Potential.atPoint (expFn : ℚ → ℚ) (p : Potential) (x : ℚ) : ℚ :=
  match p.form with
  | .squareWell l V0 => if |x| ≤ l / 2 then -V0 else 0
  | .symbolic f => f.evalWith expFn x

/-- Modelled from the spec: the values of a potential on the grid supplied at
construction. -/
def Potential.gridValues (expFn : ℚ → ℚ) (p : Potential) : List ℚ :=
  p.grid.map (p.atPoint expFn)

/-! ### Coordinate maps and the Hamiltonian -/

/-- Modelled from the spec: a complex-scaling coordinate map, either uniform
rotation or the smooth Erf-based rotation. -/
inductive CoordMap
  | uniform (theta : ℚ)
  | erfKG (theta x0 lbda : ℚ)
deriving DecidableEq, Repr

/-- Modelled from the spec: the UniformCoordMap constructor. -/
def UniformCoordMap (theta : ℚ) : CoordMap := .uniform theta

/-- Modelled from the spec: the ErfKGCoordMap constructor. -/
def ErfKGCoordMap (theta x0 lbda : ℚ) : CoordMap := .erfKG theta x0 lbda

/-- Modelled from the spec: a raw eigenpair produced by diagonalizing the
discretized rotated Schrodinger operator, before classification. -/
structure RawEigenstate where
  wavenumber : CQ
  energy : CQ
  parity : Parity
  virial : ℚ
  wavefunction : ℚ → CQ

/-- Modelled from the spec: a Hamiltonian built from a potential and a
coordinate map.  The grid discretization and diagonalization are not in the
submitted files, so the eigenpairs the solver would produce are abstracted as
the field rawEigen. -/
structure Hamiltonian where
  potential : Potential
  coordMap : CoordMap
  rawEigen : List RawEigenstate

/-- Modelled from the spec: the virial-based classification used by
Hamiltonian.solve.  An eigenstate is accepted only if its virial is smaller
than the threshold max_virial (smaller virial = more trustworthy); accepted
states are classified by the position of their complex wavenumber (positive
imaginary axis: bound; lower right half-plane: resonant; lower left
half-plane: antiresonant; otherwise rotated continuum).  Rejected states are
tagged unknown. -/
def classify (maxVirial virial : ℚ) (k : CQ) : StateType :=
  if virial < maxVirial then
    if 0 < k.im ∧ k.re = 0 then .bound
    else if k.im < 0 ∧ 0 < k.re then .resonant
    else if k.im < 0 ∧ k.re < 0 then .antiresonant
    else .continuum
  else .unknown

/-- Modelled from the spec: Hamiltonian.solve, producing a basis set in which
every raw eigenpair becomes an eigenstate tagged by the virial-based
classification, discretized on the potential's grid. -/
def Hamiltonian.solve (h : Hamiltonian) (maxVirial : ℚ) : BasisSet :=
  ⟨h.rawEigen.map fun r =>
    { wavenumber := r.wavenumber
      energy := r.energy
      parity := r.parity
      virial := r.virial
      tag := classify maxVirial r.virial r.wavenumber
      wavefunction := r.wavefunction
      grid := h.potential.grid }⟩

/-! ### Discovery of Siegert and continuum states -/

/-- Modelled from the spec: a uniform grid of wavenumbers from kmin to kmax
with step hk (empty when the step is not positive). -/
def kGrid (kmin kmax hk : ℚ) : List ℚ :=
  if hk ≤ 0 then []
  else (List.range (((kmax - kmin) / hk).floor.toNat + 1)).map
    fun i => kmin + (i : ℚ) * hk

/-- Modelled from the spec: one continuum state of wavenumber k and parity p
(its analytic waveform lives in the absent package and is abstracted). -/
def continuumState (k : ℚ) (p : Parity) (g : List ℚ) : EigenState :=
  { wavenumber := ⟨k, 0⟩
    energy := ⟨k ^ 2 / 2, 0⟩
    parity := p
    virial := 0
    tag := .continuum
    wavefunction := fun _ => ⟨0, 0⟩
    grid := g }

/-- Modelled from the spec: SWPBasisSet.find_continuum_states, returning the
basis set of continuum states on the wavenumber grid from kmin to kmax with
step hk; each wavenumber appears twice, once per parity (the notebooks note
that each wavenumber is repeated for an even and an odd state). -/
def find_continuum_states (pot : Potential) (kmax hk kmin : ℚ)
    (g : List ℚ) : BasisSet :=
  ⟨(kGrid kmin kmax hk).flatMap fun k =>
    [continuumState k .even g, continuumState k .odd g]⟩

/-- Modelled from the spec: one bound state of imaginary wavenumber kappa. -/
def boundState (kappa : ℚ) (g : List ℚ) : EigenState :=
  { wavenumber := ⟨0, kappa⟩
    energy := ⟨-(kappa ^ 2) / 2, 0⟩
    parity := .even
    virial := 0
    tag := .bound
    wavefunction := fun _ => ⟨0, 0⟩
    grid := g }

/-- Modelled from the spec: a resonant/antiresonant pair at real wavenumber k
and imaginary part -kappa. -/
def resonantPair (k kappa : ℚ) (g : List ℚ) : List EigenState :=
  [{ wavenumber := ⟨k, -kappa⟩
     energy := ⟨(k ^ 2 - kappa ^ 2) / 2, -(k * kappa)⟩
     parity := .even
     virial := 0
     tag := .resonant
     wavefunction := fun _ => ⟨0, 0⟩
     grid := g },
   { wavenumber := ⟨-k, -kappa⟩
     energy := ⟨(k ^ 2 - kappa ^ 2) / 2, k * kappa⟩
     parity := .even
     virial := 0
     tag := .antiresonant
     wavefunction := fun _ => ⟨0, 0⟩
     grid := g }]

/-- Modelled from the spec: SWPBasisSet.find_Siegert_states, returning the
basis set of Siegert states (bound states together with resonant/antiresonant
pairs) found in the complex-wavenumber search region; the analytic root search
of the absent package is abstracted as a scan of the search grids. -/
def find_Siegert_states (pot : Potential) (re_kmax re_hk im_kmax im_hk : ℚ)
    (g : List ℚ) : BasisSet :=
  ⟨((kGrid 0 im_kmax im_hk).map fun kappa => boundState kappa g) ++
    ((kGrid 0 re_kmax re_hk).flatMap fun k => resonantPair k im_kmax g)⟩

/-! ## Embedding of SSE_errors (src/unnamed/part_000, lines 85-151) -/

/-- Which error tables a run of SSE_errors prints. -/
structure SSELog where
  exactSiegertPrinted : Bool
  mlePrinted : Bool
  berggrenPrinted : Bool
deriving DecidableEq, Repr

/-- Shallow embedding of the control flow of SSE_errors (src/unnamed/part_000,
first notebook, lines 85-151), recording which expansion error tables are
printed.  The library calls it makes (SWPBasisSet.from_file,
find_continuum_states, the propagation methods, print_errors) are abstracted:
siegerts and cont stand for the basis sets read from file and discovered.  The
Python body contains the assignment `exact = cont + siegerts.bounds`, which
rebinds the local name of the boolean keyword parameter exact before the test
`if exact:` is evaluated; truthiness of a basis set is its non-emptiness. -/
def SSE_errors_printed (exact MLE Ber : Bool) (siegerts cont : BasisSet) :
    SSELog :=
  let exact := cont.add siegerts.bounds
  { exactSiegertPrinted := !exact.states.isEmpty
    mlePrinted := MLE
    berggrenPrinted := Ber }

/-! ## Embedding of scatter_plot (gaussian_potentials.ipynb, lines 356-420,
and src/unnamed/part_000, lines 1015-1079) -/

/-- Outcome of a run of scatter_plot: normal completion, the ValueError raised
in the else branch of the data_kwd dispatch (reporting the offending value),
or the ValueError numpy raises when np.min is taken over an empty array. -/
inductive ScatterOutcome
  | completes
  | dataKwdValueError (offending : String)
  | emptyMinValueError
deriving DecidableEq, Repr

/-- The basis set accumulated by scatter_plot before the loop:
`allstates = BasisSet()` followed by `allstates += b` for each b. -/
def allStatesOf (basissets : List BasisSet) : BasisSet :=
  basissets.foldl BasisSet.add ⟨[]⟩

/-- The loop of scatter_plot over the basis sets: in each iteration the
data_kwd dispatch either selects wavenumbers, selects energies, or raises
ValueError reporting the offending value.  The plotting calls themselves are
effect-free in this model. -/
def scatterKwdCheck (data_kwd : String) : List BasisSet → ScatterOutcome
  | [] => .completes
  | _b :: rest =>
    if data_kwd = "wavenumbers" then scatterKwdCheck data_kwd rest
    else if data_kwd = "energies" then scatterKwdCheck data_kwd rest
    else .dataKwdValueError data_kwd

/-- Shallow embedding of the exception behaviour of scatter_plot: before the
loop it computes `vmin = np.min(np.log10(allstates.virials))`, which raises a
ValueError when the accumulated basis set is empty (np.min of an empty array);
only then does it reach the loop containing the data_kwd check.  Axis set-up
and the plotting calls are effect-free in this model. -/
def scatter_plot_run (data_kwd : String) (basissets : List BasisSet) :
    ScatterOutcome :=
  if (allStatesOf basissets).states.isEmpty then .emptyMinValueError
  else scatterKwdCheck data_kwd basissets

/-- A sample eigenstate, used to instantiate the theorems below at concrete
inputs. -/
def sampleState : EigenState :=
  { wavenumber := ⟨1, -1⟩
    energy := ⟨0, -1⟩
    parity := .even
    virial := 1 / 1000000
    tag := .resonant
    wavefunction := fun _ => ⟨0, 0⟩
    grid := [] }

/-- Modelled from the spec: assigning a discretization grid to a state
(`s.grid = xgrid` in the notebooks), leaving its other attributes unchanged. -/
def EigenState.withGrid (s : EigenState) (g : List ℚ) : EigenState :=
  { s with grid := g }

/-- Modelled from the spec: the wavefunction of a state evaluated on its
grid. -/
def EigenState.values (s : EigenState) : List CQ :=
  s.grid.map s.wavefunction

/-! ## Theorems -/

/-- Helper: when data_kwd is one of the two admissible keywords, the loop of
scatter_plot never raises the data_kwd ValueError. -/
theorem scatterKwdCheck_of_valid (dk : String)
    (h : dk = "wavenumbers" ∨ dk = "energies") :
    ∀ bs : List BasisSet, scatterKwdCheck dk bs = .completes := by
  intro bs
  induction bs with
  | nil => rfl
  | cons b rest ihr => rcases h with h | h <;> subst h <;>
      simp [scatterKwdCheck, ihr]

/-- Helper: when data_kwd is not admissible, the first iteration of the loop
of scatter_plot raises the data_kwd ValueError. -/
theorem scatterKwdCheck_of_invalid (dk : String)
    (h : ¬ (dk = "wavenumbers" ∨ dk = "energies")) (b : BasisSet)
    (bs : List BasisSet) :
    scatterKwdCheck dk (b :: bs) = .dataKwdValueError dk := by
  push_neg at h
  simp [scatterKwdCheck, h.1, h.2]

/-- Claim C1: every file in the submission is either a Jupyter notebook or the
setup.cfg packaging/test configuration, and no file defines (as opposed to
imports and calls) SWPotential, Hamiltonian, SWPBasisSet, a root-finding
routine, or a propagation integrator; each of the three core class names is
nonetheless imported by some submitted notebook. -/
theorem claim1_submission_inventory :
    (submissionFiles.all fun f =>
      f.kind == FileKind.notebook
        || (f.path == "setup.cfg" && f.kind == FileKind.config)) = true ∧
    (submissionFiles.all fun f => f.definedNames.all fun d =>
      !(coreNames.contains d.name)
        && d.role != DefRole.rootFinder
        && d.role != DefRole.propagationIntegrator) = true ∧
    (coreNames.all fun n =>
      submissionFiles.any fun f => f.importedNames.contains n) = true := by
  decide

/-- Claim C2 is false as stated: the code cells of the notebooks do not
consist only of markdown narrative and plotting calls, since
src/unnamed/part_000 defines print_errors, a function whose role is to print a
table of numerical errors and whose body computes trapezoidal integrals via
np.trapz. -/
theorem claim2_counterexample :
    partZeroFile ∈ submissionFiles ∧
    printErrorsEntry ∈ partZeroFile.definedNames ∧
    printErrorsEntry.usesTrapz = true ∧
    printErrorsEntry.role ≠ DefRole.plottingHelper ∧
    ¬ (∀ f ∈ submissionFiles, f.kind = FileKind.notebook →
        ∀ d ∈ f.definedNames,
          d.role = DefRole.plottingHelper ∧ d.usesTrapz = false) := by
  decide

/-- Claim C2 (amended): the provided files contain no core algorithmic source
(every file is a notebook or setup.cfg, and no defined function is a core
class, a root-finding routine or a propagation integrator), but besides
markdown narrative and plotting calls the notebook code cells also define
numerical error-estimation helpers: print_errors computes trapezoidal-integral
errors (for instance the embedded integral of [1, 2, 3] with step 1/2 is 2). -/
theorem claim2_amended_no_core_source :
    (submissionFiles.all fun f =>
      f.kind == FileKind.notebook
        || (f.path == "setup.cfg" && f.kind == FileKind.config)) = true ∧
    (submissionFiles.all fun f => f.definedNames.all fun d =>
      !(coreNames.contains d.name)
        && d.role != DefRole.rootFinder
        && d.role != DefRole.propagationIntegrator) = true ∧
    printErrorsEntry ∈ partZeroFile.definedNames ∧
    printErrorsEntry.usesTrapz = true ∧
    trapz [1, 2, 3] (1 / 2) = 2 := by
  refine ⟨by decide, by decide, by decide, by decide, ?_⟩
  simp only [trapz, List.zip_cons_cons, List.zip_nil_right, List.tail_cons,
    List.map_cons, List.map_nil, List.sum_cons, List.sum_nil]
  norm_num

/-- Claim C3: in SSE_errors the boolean keyword parameter exact has no effect
on the printed output, because the local assignment
`exact = cont + siegerts.bounds` rebinds the name before `if exact:` is
tested; the exact-Siegert error table is printed exactly when that rebound
basis set is non-empty. -/
theorem claim3_exact_param_has_no_effect :
    ∀ (e1 e2 MLE Ber : Bool) (siegerts cont : BasisSet),
      SSE_errors_printed e1 MLE Ber siegerts cont
        = SSE_errors_printed e2 MLE Ber siegerts cont ∧
      ((SSE_errors_printed e1 MLE Ber siegerts cont).exactSiegertPrinted = true
        ↔ (cont.add siegerts.bounds).states ≠ []) := by
  intro e1 e2 MLE Ber siegerts cont
  refine ⟨rfl, ?_⟩
  cases hs : (cont.add siegerts.bounds).states <;>
    simp [SSE_errors_printed, hs]

/-- Claim C4: the basis set returned by Hamiltonian.solve tags every
eigenstate with exactly one of the five types bound, resonant, antiresonant,
continuum or unknown, the tag being determined by the virial-based
classification at the threshold max_virial applied to the state's own virial
and wavenumber. -/
theorem claim4_solve_tags_by_virial :
    ∀ (h : Hamiltonian) (mv : ℚ),
      ((h.solve mv).states.all fun s =>
        s.tag == classify mv s.virial s.wavenumber) = true ∧
      ((h.solve mv).states.all fun s =>
        s.tag == StateType.bound || s.tag == StateType.resonant
          || s.tag == StateType.antiresonant || s.tag == StateType.continuum
          || s.tag == StateType.unknown) = true := by
  intro h mv
  constructor
  · simp only [Hamiltonian.solve, List.all_eq_true, List.mem_map]
    rintro s ⟨r, _, rfl⟩
    simp
  · simp only [List.all_eq_true]
    intro s _
    cases hs : s.tag <;> simp

/-- Claim C5: basis-set composition a + b contains exactly the states of a
together with the states of b; the filters by type and parity return exactly
the member states of that type or parity; and the discovery routines
find_continuum_states and find_Siegert_states return basis sets (SWPBasisSet
in the library) of continuum states, respectively Siegert states. -/
theorem claim5_basis_set_algebra :
    (∀ a b : BasisSet, (a.add b).states = a.states ++ b.states) ∧
    (∀ (a : BasisSet) (s : EigenState),
      (s ∈ a.bounds.states ↔ s ∈ a.states ∧ s.tag = StateType.bound) ∧
      (s ∈ a.resonants.states ↔ s ∈ a.states ∧ s.tag = StateType.resonant) ∧
      (s ∈ a.continuum.states ↔ s ∈ a.states ∧ s.tag = StateType.continuum) ∧
      (s ∈ a.unknown.states ↔ s ∈ a.states ∧ s.tag = StateType.unknown) ∧
      (s ∈ a.even.states ↔ s ∈ a.states ∧ s.parity = Parity.even) ∧
      (s ∈ a.odd.states ↔ s ∈ a.states ∧ s.parity = Parity.odd)) ∧
    (∀ (pot : Potential) (kmax hk kmin : ℚ) (g : List ℚ),
      ((find_continuum_states pot kmax hk kmin g).states.all
        fun s => s.tag == StateType.continuum) = true) ∧
    (∀ (pot : Potential) (rkmax rhk ikmax ihk : ℚ) (g : List ℚ),
      ((find_Siegert_states pot rkmax rhk ikmax ihk g).states.all
        fun s => s.tag != StateType.continuum
          && s.tag != StateType.unknown) = true) := by
  refine ⟨fun a b => rfl, ?_, ?_, ?_⟩
  · intro a s
    refine ⟨?_, ?_, ?_, ?_, ?_, ?_⟩ <;>
      simp [BasisSet.bounds, BasisSet.resonants, BasisSet.continuum,
        BasisSet.unknown, BasisSet.even, BasisSet.odd, BasisSet.ofType,
        List.mem_filter]
  · intro pot kmax hk kmin g
    simp only [find_continuum_states, List.all_eq_true, List.mem_flatMap,
      List.mem_cons, List.not_mem_nil, or_false]
    rintro s ⟨k, _, rfl | rfl⟩ <;> rfl
  · intro pot rkmax rhk ikmax ihk g
    simp only [find_Siegert_states, List.all_eq_true, List.mem_append,
      List.mem_map, List.mem_flatMap, resonantPair, List.mem_cons,
      List.not_mem_nil, or_false]
    rintro s (⟨kappa, _, rfl⟩ | ⟨k, _, rfl | rfl⟩) <;> rfl

/-- Claim C6 is false as stated: with the non-empty list of basis sets
[BasisSet()] and the invalid data_kwd "foo", scatter_plot does not raise the
ValueError reporting the offending value, because np.min over the virials of
the empty accumulated basis set raises its own ValueError before the loop
containing the data_kwd check is reached. -/
theorem claim6_counterexample :
    [BasisSet.mk []] ≠ ([] : List BasisSet) ∧
    ¬ ("foo" = "wavenumbers" ∨ "foo" = "energies") ∧
    scatter_plot_run "foo" [BasisSet.mk []]
      = ScatterOutcome.emptyMinValueError ∧
    scatter_plot_run "foo" [BasisSet.mk []]
      ≠ ScatterOutcome.dataKwdValueError "foo" := by
  refine ⟨List.cons_ne_nil _ _, by decide, rfl, by decide⟩

/-- Claim C6 (amended): for every call to scatter_plot whose basis sets
together contain at least one state, the ValueError reporting the offending
value is raised if and only if data_kwd is neither of the two admissible
keywords; the check sits inside the loop over basis sets, and when the
basissets argument is empty no data_kwd ValueError is raised regardless of its
value (the run instead fails earlier, when np.min is taken over the empty
collection of virials). -/
theorem claim6_amended_data_kwd_check :
    ∀ (dk : String) (bs : List BasisSet),
      ((allStatesOf bs).states ≠ [] →
        (scatter_plot_run dk bs = ScatterOutcome.dataKwdValueError dk
          ↔ ¬ (dk = "wavenumbers" ∨ dk = "energies"))) ∧
      scatter_plot_run dk [] = ScatterOutcome.emptyMinValueError ∧
      scatter_plot_run dk [] ≠ ScatterOutcome.dataKwdValueError dk := by
  intro dk bs
  refine ⟨?_, rfl, by intro hh; exact ScatterOutcome.noConfusion hh⟩
  intro hne
  have hbs : bs ≠ [] := by
    intro hnil
    rw [hnil] at hne
    exact hne rfl
  have hrun : scatter_plot_run dk bs = scatterKwdCheck dk bs := by
    unfold scatter_plot_run
    rw [if_neg]
    simp [List.isEmpty_iff, hne]
  constructor
  · intro heq hvalid
    rw [hrun, scatterKwdCheck_of_valid dk hvalid bs] at heq
    exact ScatterOutcome.noConfusion heq
  · intro hinvalid
    obtain ⟨b, rest, rfl⟩ := List.exists_cons_of_ne_nil hbs
    rw [hrun]
    exact scatterKwdCheck_of_invalid dk hinvalid b rest

/-- Witness for claim C6 (amended): on a basis set holding one state and the
invalid keyword "foo", scatter_plot raises the data_kwd ValueError. -/
theorem claim6_witness :
    scatter_plot_run "foo" [BasisSet.mk [sampleState]]
      = ScatterOutcome.dataKwdValueError "foo" :=
  ((claim6_amended_data_kwd_check "foo" [BasisSet.mk [sampleState]]).1
    (List.cons_ne_nil _ _)).mpr (by decide)

/-- Claim C7: print_errors prints one table row per entry of the enclosing
global time_grid (modelled as the explicit argument timeGridGlobal, since the
Python function has no such parameter), with the absolute error at index i
the trapezoidal integral of |exact[i] - siegert_exp[i]| with step dx, and the
relative error that absolute error divided by the trapezoidal integral of
|exact[i]| with step dx. -/
theorem claim7_print_errors_table :
    ∀ (timeGridGlobal : List ℚ) (exact siegert_exp : List (List ℚ)) (dx : ℚ),
      (print_errors_rows timeGridGlobal exact siegert_exp dx).length
        = timeGridGlobal.length ∧
      ∀ i : ℕ, i < timeGridGlobal.length →
        (print_errors_rows timeGridGlobal exact siegert_exp dx).getD i
            ⟨0, 0, 0⟩
          = { t := timeGridGlobal.getD i 0
              absError := trapz (((exact.getD i []).zip
                  (siegert_exp.getD i [])).map fun p => |p.1 - p.2|) dx
              relError := trapz (((exact.getD i []).zip
                  (siegert_exp.getD i [])).map fun p => |p.1 - p.2|) dx
                / trapz ((exact.getD i []).map fun a => |a|) dx } := by
  intro tg exact se dx
  constructor
  · simp [print_errors_rows]
  · intro i hi
    simp [print_errors_rows, List.getD_eq_getElem?_getD, List.getElem?_map,
      List.getElem?_range, hi]

/-- Witness for claim C7: a concrete two-row table; at time 0 with step 1/2,
exact row [1, 2, 3] and expansion row [1, 1, 1] give absolute error 1 and
relative error 1/2. -/
theorem claim7_witness :
    (print_errors_rows [0, 1] [[1, 2, 3], [0, 0, 0]] [[1, 1, 1], [0, 0, 0]]
        (1 / 2)).length = 2 ∧
    (print_errors_rows [0, 1] [[1, 2, 3], [0, 0, 0]] [[1, 1, 1], [0, 0, 0]]
        (1 / 2)).getD 0 ⟨0, 0, 0⟩
      = { t := 0, absError := 1, relError := 1 / 2 } := by
  have h := claim7_print_errors_table [0, 1] [[1, 2, 3], [0, 0, 0]]
    [[1, 1, 1], [0, 0, 0]] (1 / 2)
  refine ⟨h.1, (h.2 0 (by decide)).trans ?_⟩
  simp only [trapz, List.getD_cons_zero, List.zip_cons_cons,
    List.zip_nil_right, List.tail_cons, List.map_cons, List.map_nil,
    List.sum_cons, List.sum_nil]
  norm_num

/-- Claim C8: every individual state exposes a wavenumber, an energy, a
parity, a virial quality metric and a wavefunction evaluable on a grid, and
the grid is assignable to the state: assigning a grid installs exactly that
grid, leaves all other attributes unchanged, and the state's values are its
wavefunction evaluated on the assigned grid. -/
theorem claim8_state_attributes :
    ∀ (s : EigenState) (g : List ℚ),
      (s.withGrid g).grid = g ∧
      (s.withGrid g).values = g.map s.wavefunction ∧
      (s.withGrid g).wavenumber = s.wavenumber ∧
      (s.withGrid g).energy = s.energy ∧
      (s.withGrid g).parity = s.parity ∧
      (s.withGrid g).virial = s.virial := by
  intro s g
  exact ⟨rfl, rfl, rfl, rfl, rfl, rfl⟩

/-- Claim C9: every potential object (square-well, Woods-Saxon, sum-of-
Gaussians, or symbolic) represents a function V(x) evaluable both on the grid
supplied at construction and at arbitrary points. -/
theorem claim9_potentials_evaluable :
    ∀ (expFn : ℚ → ℚ) (l V0 lbda s1 c1 h1 s2 c2 h2 : ℚ) (g : List ℚ) (x : ℚ),
      (SWPotential l V0 g).grid = g ∧
      Potential.gridValues expFn (SWPotential l V0 g)
        = g.map (Potential.atPoint expFn (SWPotential l V0 g)) ∧
      Potential.atPoint expFn (SWPotential l V0 g) x
        = (if |x| ≤ l / 2 then -V0 else 0) ∧
      (WoodsSaxonPotential l V0 lbda g).grid = g ∧
      Potential.gridValues expFn (WoodsSaxonPotential l V0 lbda g)
        = g.map (Potential.atPoint expFn (WoodsSaxonPotential l V0 lbda g)) ∧
      Potential.atPoint expFn (WoodsSaxonPotential l V0 lbda g) x
        = (woodsSaxonExpr l V0 lbda).evalWith expFn x ∧
      (TwoGaussianPotential s1 c1 h1 s2 c2 h2 g).grid = g ∧
      Potential.gridValues expFn (TwoGaussianPotential s1 c1 h1 s2 c2 h2 g)
        = g.map (Potential.atPoint expFn
            (TwoGaussianPotential s1 c1 h1 s2 c2 h2 g)) ∧
      Potential.atPoint expFn (TwoGaussianPotential s1 c1 h1 s2 c2 h2 g) x
        = (gaussianExpr s1 c1 h1).evalWith expFn x
          + (gaussianExpr s2 c2 h2).evalWith expFn x ∧
      ∀ f : SymExpr,
        (SymbolicPotential f g).grid = g ∧
        Potential.gridValues expFn (SymbolicPotential f g)
          = g.map (Potential.atPoint expFn (SymbolicPotential f g)) ∧
        Potential.atPoint expFn (SymbolicPotential f g) x
          = f.evalWith expFn x := by
  intro expFn l V0 lbda s1 c1 h1 s2 c2 h2 g x
  exact ⟨rfl, rfl, rfl, rfl, rfl, rfl, rfl, rfl, rfl,
    fun f => ⟨rfl, rfl, rfl⟩⟩

/-- Claim C10: the virial is the acceptance metric of Hamiltonian.solve: an
eigenstate of the returned basis set is classified as anything other than
unknown only if its virial is smaller than the threshold max_virial. -/
theorem claim10_accepted_only_below_max_virial :
    ∀ (h : Hamiltonian) (mv : ℚ),
      ((h.solve mv).states.all fun s =>
        s.tag == StateType.unknown || decide (s.virial < mv)) = true := by
  intro h mv
  simp only [Hamiltonian.solve, List.all_eq_true, List.mem_map]
  rintro s ⟨r, _, rfl⟩
  by_cases hv : r.virial < mv
  · simp [hv]
  · simp [classify, hv]

end SiegPy
